import Mathlib

/-!
Verification of the record-matching core of the hydraulic hose/fitting
catalog reconciliation scripts.

The Python sources are embedded shallowly:

* dictionaries with optional fields become structures with `Option` fields
  (a `none` field models an absent key);
* Python floats become `ℚ` (the values handled are short decimals, so
  rational arithmetic is exact on every computation the theorems touch);
* a Python function that can raise becomes a function into `Option` or
  `Except` (with `none`/`.error` modelling the exception);
* Python truthiness is modelled explicitly: `None`, the empty string and
  the number `0` are falsy;
* the few regular expressions used by the scripts are embedded as
  left-to-right scanners over the character list, which coincides with
  `re.search` semantics for these patterns (the patterns never benefit
  from backtracking: `\s*` and `\d+` are followed by tokens that cannot
  match whitespace resp. digits).

Python's `str.upper`/`str.lower` are modelled on the ASCII range (all
strings in the data are ASCII apart from a few symbols, which both
Python and this model leave unchanged). Python's `int`/`float` literal
parsers are modelled without underscore separators and exponents, which
never occur in catalog cell data.
-/

attribute [local semireducible] Rat.add Rat.mul Rat.inv Rat.sub

namespace Scraping

/-! ## Basic Python-string primitives

Every operation is written by structural recursion over the character
list of the string, so that closed instances of the theorems can be
settled by kernel evaluation. -/

/-- ASCII uppercase of a string, as `str.upper` acts on the data here. -/
def upperAscii (s : String) : String := String.mk (s.toList.map Char.toUpper)

/-- ASCII lowercase of a string, as `str.lower` acts on the data here. -/
def lowerAscii (s : String) : String := String.mk (s.toList.map Char.toLower)

/-- Python whitespace class `\s` restricted to the ASCII characters that
occur in the data. -/
def isSpaceA (c : Char) : Bool := c = ' ' || c = '\t' || c = '\n' || c = '\r'

/-- `needle` is a leading segment of `hay`. -/
def leadMatch : List Char → List Char → Bool
  | [], _ => true
  | _ :: _, [] => false
  | a :: as, b :: bs => a = b && leadMatch as bs

/-- `needle` occurs somewhere in `hay` (Python's `needle in hay`). -/
def hasSub (needle : List Char) : List Char → Bool
  | [] => leadMatch needle []
  | c :: rest => leadMatch needle (c :: rest) || hasSub needle rest

/-- Python's substring test `needle in hay`. -/
def substr (needle hay : String) : Bool := hasSub needle.toList hay.toList

/-- Python's `str.strip()` (both-ends whitespace removal). -/
def pyStrip (s : String) : String :=
  String.mk (((s.toList.dropWhile (fun c => isSpaceA c)).reverse.dropWhile
    (fun c => isSpaceA c)).reverse)

/-- One fuelled step list for `str.replace`: each recursion step consumes
at least one character, so the length of the list is enough fuel. -/
def replaceAux (old new : List Char) : ℕ → List Char → List Char
  | 0, l => l
  | _ + 1, [] => []
  | fuel + 1, c :: rest =>
    if leadMatch old (c :: rest) then
      new ++ replaceAux old new fuel (rest.drop (old.length - 1))
    else c :: replaceAux old new fuel rest

/-- Python's `s.replace(old, new)` (all non-overlapping occurrences,
left to right; every use in the sources has a non-empty `old`). -/
def pyReplace (s old new : String) : String :=
  String.mk (replaceAux old.toList new.toList s.toList.length s.toList)

/-- Truthiness of an optional string: `None` and `""` are falsy. -/
def truthyS : Option String → Bool
  | none => false
  | some s => s ≠ ""

/-- Truthiness of an optional number: `None` and `0` are falsy. -/
def truthyQ : Option ℚ → Bool
  | none => false
  | some q => q ≠ 0

/-- Python's `x or y` on optional numbers: the first truthy operand,
else the second operand. -/
def pyOrQ (a b : Option ℚ) : Option ℚ := if truthyQ a then a else b

/-- Python's `str(x)` on an optional string (`str(None) = "None"`). -/
def pyStr : Option String → String
  | none => "None"
  | some s => s

/-- Maximal leading run of ASCII digits, with the rest of the list. -/
def spanDigits : List Char → List Char × List Char
  | [] => ([], [])
  | c :: rest =>
    if c.isDigit then
      let (ds, r) := spanDigits rest
      (c :: ds, r)
    else ([], c :: rest)

/-- Drop a maximal leading run of whitespace (`\s*`, greedy). -/
def dropSpaces : List Char → List Char
  | [] => []
  | c :: rest => if isSpaceA c then dropSpaces rest else c :: rest

/-- Value of a non-empty all-digit character list. -/
def digitsVal : List Char → Option ℕ
  | [] => none
  | l => if l.all Char.isDigit then some (l.foldl (fun a c => a * 10 + (c.toNat - '0'.toNat)) 0) else none

/-- Python's `int(s)`: optional surrounding whitespace, optional sign,
decimal digits.  `none` models the `ValueError`. -/
def pyIntOfString (s : String) : Option ℤ :=
  match (pyStrip s).toList with
  | '-' :: rest => (digitsVal rest).map (fun n => -(n : ℤ))
  | '+' :: rest => (digitsVal rest).map (fun n => (n : ℤ))
  | l => (digitsVal l).map (fun n => (n : ℤ))

/-- Value of a digit list read as the fractional part after a decimal point. -/
def fracVal (l : List Char) : ℚ :=
  (l.foldl (fun a c => a * 10 + (c.toNat - '0'.toNat)) 0 : ℚ) / ((10 : ℚ) ^ l.length)

/-- Unsigned decimal literal: `digits`, `digits.`, `digits.digits`, `.digits`. -/
def decimalVal : List Char → Option ℚ
  | l =>
    match l.splitOn '.' with
    | [intPart] => (digitsVal intPart).map (fun n => (n : ℚ))
    | [intPart, fracPart] =>
      if intPart = [] then
        if fracPart ≠ [] && fracPart.all Char.isDigit then some (fracVal fracPart) else none
      else if fracPart = [] then
        (digitsVal intPart).map (fun n => (n : ℚ))
      else
        match digitsVal intPart with
        | some n => if fracPart.all Char.isDigit then some ((n : ℚ) + fracVal fracPart) else none
        | none => none
    | _ => none

/-- Python's `float(s)` on the decimal literals occurring in the data:
optional surrounding whitespace, optional sign, digits with at most one
decimal point.  `none` models the `ValueError`. -/
def pyFloatOfString (s : String) : Option ℚ :=
  match (pyStrip s).toList with
  | '-' :: rest => (decimalVal rest).map (fun q => -q)
  | '+' :: rest => decimalVal rest
  | l => decimalVal l

/-- Python's `str.split()` (split on whitespace runs, dropping empties). -/
def pySplitWs (s : String) : List String :=
  (s.toList.splitOnP (fun c => isSpaceA c)).filterMap
    (fun l => if l = [] then none else some (String.mk l))

/-- Generic leftmost-match scanner: try the matcher at every suffix,
left to right, as `re.search` does. -/
def scanFirst (f : List Char → Option (List Char)) : List Char → Option (List Char)
  | [] => f []
  | c :: rest =>
    match f (c :: rest) with
    | some r => some r
    | none => scanFirst f rest

end Scraping

namespace Scraping

/-! ## Regular expressions used by the matchers, as leftmost scanners -/

/-- Match `EN\s*(\d{3})` at the head of the list, returning group 1. -/
def enHere : List Char → Option (List Char)
  | 'E' :: 'N' :: rest =>
    match dropSpaces rest with
    | d1 :: d2 :: d3 :: _ =>
      if d1.isDigit && d2.isDigit && d3.isDigit then some [d1, d2, d3] else none
    | _ => none
  | _ => none

/-- `re.search(r'EN\s*(\d{3})', s)`, group 1. -/
def enSearch (s : String) : Option String :=
  (scanFirst enHere s.toList).map String.mk

/-- Match `SAE\s*\d+R(\d+)` at the head of the list, returning group 1. -/
def saeHere : List Char → Option (List Char)
  | 'S' :: 'A' :: 'E' :: rest =>
    let (ds, r1) := spanDigits (dropSpaces rest)
    if ds = [] then none
    else
      match r1 with
      | 'R' :: r2 =>
        let (gs, _) := spanDigits r2
        if gs = [] then none else some gs
      | _ => none
  | _ => none

/-- `re.search(r'SAE\s*\d+R(\d+)', s)`, group 1. -/
def saeSearch (s : String) : Option String :=
  (scanFirst saeHere s.toList).map String.mk

/-- Match `DIN\s*EN\s*\d+` at the head of the list, returning group 0. -/
def dinEnHere : List Char → Option (List Char)
  | 'D' :: 'I' :: 'N' :: rest =>
    let sp1 := rest.takeWhile (fun c => isSpaceA c)
    match rest.dropWhile (fun c => isSpaceA c) with
    | 'E' :: 'N' :: rest2 =>
      let sp2 := rest2.takeWhile (fun c => isSpaceA c)
      let (ds, _) := spanDigits (rest2.dropWhile (fun c => isSpaceA c))
      if ds = [] then none
      else some ('D' :: 'I' :: 'N' :: sp1 ++ 'E' :: 'N' :: sp2 ++ ds)
    | _ => none
  | _ => none

/-- Match `SAE\s*\d+R\d+` at the head of the list, returning group 0. -/
def saeFullHere : List Char → Option (List Char)
  | 'S' :: 'A' :: 'E' :: rest =>
    let sp := rest.takeWhile (fun c => isSpaceA c)
    let (ds, r1) := spanDigits (rest.dropWhile (fun c => isSpaceA c))
    if ds = [] then none
    else
      match r1 with
      | 'R' :: r2 =>
        let (gs, _) := spanDigits r2
        if gs = [] then none
        else some ('S' :: 'A' :: 'E' :: sp ++ ds ++ 'R' :: gs)
      | _ => none
  | _ => none

/-- Match `EN\s*\d+` at the head of the list, returning group 0. -/
def enFullHere : List Char → Option (List Char)
  | 'E' :: 'N' :: rest =>
    let sp := rest.takeWhile (fun c => isSpaceA c)
    let (ds, _) := spanDigits (rest.dropWhile (fun c => isSpaceA c))
    if ds = [] then none else some ('E' :: 'N' :: sp ++ ds)
  | _ => none

/-- Match `ISO\s*\d+` at the head of the list, returning group 0. -/
def isoHere : List Char → Option (List Char)
  | 'I' :: 'S' :: 'O' :: rest =>
    let sp := rest.takeWhile (fun c => isSpaceA c)
    let (ds, _) := spanDigits (rest.dropWhile (fun c => isSpaceA c))
    if ds = [] then none else some ('I' :: 'S' :: 'O' :: sp ++ ds)
  | _ => none

/-- Match `(\d+)°` at the head of the list, returning group 1. -/
def degHere (l : List Char) : Option (List Char) :=
  let (ds, r) := spanDigits l
  if ds = [] then none
  else match r with
  | '°' :: _ => some ds
  | _ => none

/-- `re.search(r'(\d+)°', s)`, group 1. -/
def degSearch (s : String) : Option String :=
  (scanFirst degHere s.toList).map String.mk

/-- Match `DN\s*(\d+)` at the head of the list, returning group 1. -/
def dnHere : List Char → Option (List Char)
  | 'D' :: 'N' :: rest =>
    let (ds, _) := spanDigits (dropSpaces rest)
    if ds = [] then none else some ds
  | _ => none

/-- `re.search(r'DN\s*(\d+)', s)`, group 1. -/
def dnSearch (s : String) : Option String :=
  (scanFirst dnHere s.toList).map String.mk

/-- Match `(\d+\.?\d*)` at the head of the list (greedy), group 1. -/
def numHere (l : List Char) : Option (List Char) :=
  let (ds, r) := spanDigits l
  if ds = [] then none
  else match r with
  | '.' :: r2 =>
    let (fs, _) := spanDigits r2
    some (ds ++ '.' :: fs)
  | _ => some ds

/-- `re.search(r'(\d+\.?\d*)', s)`, group 1. -/
def numSearch (s : String) : Option String :=
  (scanFirst numHere s.toList).map String.mk

/-- Match `\d+` at the head of the list (greedy). -/
def digitsHere (l : List Char) : Option (List Char) :=
  let (ds, _) := spanDigits l
  if ds = [] then none else some ds

/-- `re.search(r'\d+', s)`, group 0. -/
def digitsSearch (s : String) : Option String :=
  (scanFirst digitsHere s.toList).map String.mk

/-- Match `-?\s*(\d+)` at the head of the list, returning group 1. -/
def dashHere (l : List Char) : Option (List Char) :=
  let l2 := match l with
    | '-' :: rest => dropSpaces rest
    | _ => dropSpaces l
  digitsHere l2

/-- `re.search(r'-?\s*(\d+)', s)`, group 1. -/
def dashSearch (s : String) : Option String :=
  (scanFirst dashHere s.toList).map String.mk

end Scraping

namespace Scraping

/-! ## Decimal rendering (Python `f"{x:.1f}"`) -/

/-- Round to the nearest integer, ties to even (Python `round`/format
semantics on the exact decimal values arising here). -/
def roundHalfEven (x : ℚ) : ℤ :=
  let f := Int.floor x
  let r := x - f
  if r < 1/2 then f
  else if 1/2 < r then f + 1
  else if Even f then f else f + 1

/-- Python `f"{x:.1f}"` on the exact rational value (binary-float
representation noise and the `-0.0` edge are not modelled; no theorem
below depends on a value where they differ). -/
def fmtQ1 (q : ℚ) : String :=
  let n := roundHalfEven (q * 10)
  let sgn := if n < 0 then "-" else ""
  let m := n.natAbs
  sgn ++ toString (m / 10) ++ "." ++ toString (m % 10)

/-- A dict lookup `d.get('key', '')` with string values. -/
def getS : Option String → String := fun o => o.getD ""

end Scraping

namespace Scraping.ProductMatcher

/-!
## `Hose_Scraping/scripts/product_matcher.py`

`ProductMatcher._calculate_match_score` and its callers.  A product
dictionary is embedded as a record of the fields the matcher reads.
-/

/-- The fields of a hose product dictionary read by
`ProductMatcher._calculate_match_score`. -/
structure HoseRec where
  dn : Option String
  working_pressure_mpa : Option ℚ
  working_pressure_bar : Option ℚ
  standard : Option String
  construction : Option String
  inner_diameter_mm : Option ℚ
deriving DecidableEq

/-- The construction pre-check (lines 63–79): the Compatibility Gate of
the hose matcher.  `some reason` models the early `return 0, [reason]`. -/
def hoseGateStr (bcon hcon : Option String) : Option String :=
  let bc := lowerAscii (getS bcon)
  let hc := lowerAscii (getS hcon)
  if bc ≠ "" ∧ hc ≠ "" then
    if substr "textile" bc && substr "wire" hc then
      some "Construction mismatch: textile vs wire - INCOMPATIBLE"
    else if substr "wire" bc && substr "textile" hc then
      some "Construction mismatch: wire vs textile - INCOMPATIBLE"
    else if (substr "spiral" bc) ≠ (substr "spiral" hc) then
      some "Construction mismatch: spiral vs non-spiral - INCOMPATIBLE"
    else none
  else none

/-- Criterion 1, DN (30 points).  `none` models the `ValueError` raised
by `int(...)` when an unequal DN string has no integer form. -/
def dnCrit (bdn hdn : Option String) : Option (ℕ × List String) :=
  if truthyS bdn ∧ truthyS hdn then
    let bd := getS bdn
    let hd := getS hdn
    if bd = hd then some (30, ["DN match: " ++ bd])
    else
      match pyIntOfString (pyReplace bd "DN" ""), pyIntOfString (pyReplace hd "DN" "") with
      | some x, some y =>
        if (x - y).natAbs ≤ 2 then some (15, ["DN close: " ++ bd ++ " ≈ " ++ hd])
        else some (0, [])
      | _, _ => none
  else some (0, [])

/-- Criterion 2, working pressure (25 points).  The unit of each side is
decided by the *presence of the `working_pressure_bar` key*, exactly as
the source tests `'working_pressure_bar' in balflex`. -/
def pressureCrit (bmpa bbar hmpa hbar : Option ℚ) : ℕ × List String :=
  let bp := pyOrQ bmpa bbar
  let hp := pyOrQ hmpa hbar
  if truthyQ bp ∧ truthyQ hp then
    let bpv := bp.getD 0
    let hpv := hp.getD 0
    let bpm := if bbar.isSome then bpv / 10 else bpv
    let hpm := if hbar.isSome then hpv / 10 else hpv
    let diffPercent := |bpm - hpm| / max bpm hpm * 100
    if diffPercent ≤ 5 then
      (25, ["Pressure match: " ++ fmtQ1 bpm ++ " MPa ≈ " ++ fmtQ1 hpm ++ " MPa"])
    else if diffPercent ≤ 15 then
      (15, ["Pressure similar: " ++ fmtQ1 bpm ++ " MPa ≈ " ++ fmtQ1 hpm ++ " MPa"])
    else if diffPercent ≤ 30 then (8, [])
    else (0, [])
  else (0, [])

/-- `ProductMatcher._extract_standard_code` (patterns tried in order;
they are matched here against the already-uppercased input, which is
equivalent to the source's `re.IGNORECASE` since every caller passes
`standard.upper()`). -/
def extract_standard_code (standard : String) : String :=
  match scanFirst dinEnHere standard.toList with
  | some g => String.mk (g.filter (fun c => c ≠ ' '))
  | none =>
  match scanFirst saeFullHere standard.toList with
  | some g => String.mk (g.filter (fun c => c ≠ ' '))
  | none =>
  match scanFirst enFullHere standard.toList with
  | some g => String.mk (g.filter (fun c => c ≠ ' '))
  | none =>
  match scanFirst isoHere standard.toList with
  | some g => String.mk (g.filter (fun c => c ≠ ' '))
  | none => standard

/-- The `if not matched:` fallback of criterion 3 (lines 170–180). -/
def stdFallback (bs hs : String) : ℕ × List String :=
  let bc := extract_standard_code bs
  let hc := extract_standard_code hs
  if bc = hc then (20, ["Standard match: " ++ bc])
  else if substr bc hc || substr hc bc then
    (10, ["Standard similar: " ++ bc ++ " / " ++ hc])
  else (0, [])

/-- Criterion 3, standard/norm (20 points), on the raw optional standard
fields (uppercasing happens inside, as in the source). -/
def standardCrit (bstd hstd : Option String) : ℕ × List String :=
  let bs := upperAscii (getS bstd)
  let hs := upperAscii (getS hstd)
  if bs ≠ "" ∧ hs ≠ "" then
    match enSearch bs, enSearch hs with
    | some bn, some hn =>
      if bn = hn then (20, ["Standard match: EN " ++ bn])
      else if (bn = "853" ∨ bn = "857") ∧ (hn = "853" ∨ hn = "857") then
        (10, ["Standard compatible: EN " ++ bn ++ " / EN " ++ hn])
      else stdFallback bs hs
    | _, _ =>
      match saeSearch bs, saeSearch hs with
      | some bn, some hn =>
        if bn = hn then (20, ["Standard match: SAE 100R" ++ bn])
        else stdFallback bs hs
      | _, _ => stdFallback bs hs
  else (0, [])

/-- Criterion 4, construction type (15 points). -/
def constructionCrit (bcon hcon : Option String) : ℕ × List String :=
  let bc := lowerAscii (getS bcon)
  let hc := lowerAscii (getS hcon)
  if bc ≠ "" ∧ hc ≠ "" then
    if bc = hc then (15, ["Construction match: " ++ bc])
    else if (substr "1 wire" bc && substr "1 wire" hc) ||
            (substr "2 wire" bc && substr "2 wire" hc) ||
            (substr "spiral" bc && substr "spiral" hc) then
      (12, ["Construction similar"])
    else (0, [])
  else (0, [])

/-- Criterion 5, inner diameter (10 points). -/
def innerCrit (bi hi : Option ℚ) : ℕ × List String :=
  if truthyQ bi ∧ truthyQ hi then
    let b := bi.getD 0
    let h := hi.getD 0
    let diff := |b - h| / max b h * 100
    if diff ≤ 5 then (10, ["Inner diameter match"])
    else if diff ≤ 15 then (5, [])
    else (0, [])
  else (0, [])

/-- `ProductMatcher._calculate_match_score`.  The result is
`some (normalized score, reasons)`; `none` models a propagating
`ValueError` from the DN criterion.  `max_score` is accumulated exactly
as in the source: every criterion adds its weight unconditionally. -/
def calculate_match_score (b h : HoseRec) : Option (ℚ × List String) :=
  match hoseGateStr b.construction h.construction with
  | some reason => some (0, [reason])
  | none =>
    match dnCrit b.dn h.dn with
    | none => none
    | some (dp, dr) =>
      let (pp, pr) := pressureCrit b.working_pressure_mpa b.working_pressure_bar
        h.working_pressure_mpa h.working_pressure_bar
      let (sp, sr) := standardCrit b.standard h.standard
      let (cp, cr) := constructionCrit b.construction h.construction
      let (ip, ir) := innerCrit b.inner_diameter_mm h.inner_diameter_mm
      let score : ℕ := dp + pp + sp + cp + ip
      let max_score : ℕ := 0 + 30 + 25 + 20 + 15 + 10
      let normalized_score : ℚ :=
        if 0 < max_score then ((score : ℚ) / (max_score : ℚ)) * 100 else 0
      some (normalized_score, dr ++ pr ++ sr ++ cr ++ ir)

/-- The raw sum of awarded points (no normalization): the Gate's reject
path awards nothing, otherwise the five criteria are summed. -/
def raw_points (b h : HoseRec) : Option ℕ :=
  match hoseGateStr b.construction h.construction with
  | some _ => some 0
  | none =>
    (dnCrit b.dn h.dn).map fun p =>
      p.1 + (pressureCrit b.working_pressure_mpa b.working_pressure_bar
              h.working_pressure_mpa h.working_pressure_bar).1
        + (standardCrit b.standard h.standard).1
        + (constructionCrit b.construction h.construction).1
        + (innerCrit b.inner_diameter_mm h.inner_diameter_mm).1

/-- `ProductMatcher._score_to_quality`. -/
def score_to_quality (score : ℚ) : String :=
  if 80 ≤ score then "Excellent Match"
  else if 60 ≤ score then "Good Match"
  else if 40 ≤ score then "Fair Match"
  else "Possible Match"

/-- The inner loop of `ProductMatcher.match_products` (lines 35–44) for
one source record: scan the targets keeping the best strict improvement.
`none` models a propagating exception from the scorer. -/
def bestLoop (b : HoseRec) :
    List HoseRec → Option HoseRec × ℚ × List String →
    Option (Option HoseRec × ℚ × List String)
  | [], st => some st
  | t :: ts, (bm, bs, br) =>
    match calculate_match_score b t with
    | none => none
    | some (s, rs) =>
      bestLoop b ts (if bs < s then (some t, s, rs) else (bm, bs, br))

/-- Whether `ProductMatcher.match_products` emits a match entry for the
source record `b` (line 47: `best_match and best_score >= 30`). -/
def emitsMatch (b : HoseRec) (targets : List HoseRec) : Option Bool :=
  (bestLoop b targets (none, 0, [])).map
    (fun st => st.1.isSome && decide ((30 : ℚ) ≤ st.2.1))

/-- The best candidate score for `b` over `targets` (0 when empty). -/
def bestScore (b : HoseRec) (targets : List HoseRec) : ℚ :=
  (targets.map (fun t => ((calculate_match_score b t).map Prod.fst).getD 0)).foldl max 0

end Scraping.ProductMatcher

namespace Scraping.SeriesMatcher

/-!
## `match_pressarmaturen_WITH_SERIES.py`

`calculate_match_score` (the series-validated fittings scorer) and the
per-record selection of `match_products`.
-/

/-- The fields of a Heizmann fitting dictionary read by the scorer. -/
structure HeizFit where
  angle : Option String
  series : Option String
  dn : Option String
  standard : Option String
  seat_type : Option String
  connection_type : Option String
  identification : Option String
  model : Option String
deriving DecidableEq

/-- The fields of a Balflex fitting dictionary read by the scorer. -/
structure BalFit where
  angle : Option String
  series : Option String
  hose_size_mm : Option String
  standard : Option String
  seat_type : Option String
  gender : Option String
deriving DecidableEq

/-- `normalize_standard`: first base keyword contained in the uppercased
text, in the fixed priority order of the source. -/
def normalize_standard (std : Option String) : Option String :=
  if ¬ truthyS std then none
  else
    let u := upperAscii (getS std)
    if substr "ISO" u then some "ISO"
    else if substr "JIS" u then some "JIS"
    else if substr "BSP" u then some "BSP"
    else if substr "NPT" u then some "NPT"
    else if substr "JIC" u then some "JIC"
    else if substr "ORFS" u then some "ORFS"
    else if substr "SAE" u then some "SAE"
    else if substr "DIN" u then some "DIN"
    else none

/-- `normalize_seat_type`. -/
def normalize_seat_type (seat : Option String) : Option String :=
  if ¬ truthyS seat then none
  else
    let s := getS seat
    match degSearch s with
    | some num => some (num ++ "° Cone")
    | none =>
      if substr "flat" (lowerAscii s) then some "Flat Face"
      else if substr "o-ring" (lowerAscii s) || substr "oring" (lowerAscii s) then
        some "O-Ring"
      else none

/-- `determine_gender_heizmann`. -/
def determine_gender_heizmann (hz : HeizFit) : String :=
  let connection := getS hz.connection_type
  let cl := lowerAscii connection
  if connection ≠ "" ∧ (substr "innengewinde" cl || substr "innenkegel" cl) then "Female"
  else if connection ≠ "" ∧ (substr "aussengewinde" cl || substr "aussenkegel" cl) then "Male"
  else
    let combined := lowerAscii (getS hz.model ++ " " ++ getS hz.identification)
    if substr "muffe" combined then "Female"
    else if substr "mutter" combined then "Female"
    else if substr "female" combined then "Female"
    else if substr "socket" combined then "Female"
    else if substr "coupler" combined then "Female"
    else if substr "nippel" combined then "Male"
    else if substr "stecker" combined then "Male"
    else if substr "male" combined then "Male"
    else if substr "plug" combined then "Male"
    else if substr "stem" combined then "Male"
    else "Unknown"

/-- Outcome of a mandatory criterion: an early `return 0, [], [msg]`
(`inl`) or `(points, reasons, warnings)` (`inr`). -/
abbrev CritStep := String ⊕ (ℕ × List String × List String)

/-- Criterion 1, angle (mandatory, 20 points; lines 125–136). -/
def angleStep (ha ba : Option String) : CritStep :=
  if truthyS ha ∧ truthyS ba then
    if getS ha = getS ba then .inr (20, ["Angle: " ++ getS ha], [])
    else .inl ("ANGLE MISMATCH: " ++ getS ha ++ " ≠ " ++ getS ba)
  else if truthyS ha ∨ truthyS ba then
    .inr (0, [], ["Angle missing in one product (H:" ++ pyStr ha ++ ", B:" ++ pyStr ba ++ ")"])
  else .inr (0, [], [])

/-- Criterion 2, series L/S (mandatory, 20 points; lines 138–149). -/
def seriesStep (hs bs : Option String) : CritStep :=
  if truthyS hs ∧ truthyS bs then
    if getS hs = getS bs then .inr (20, ["Series: " ++ getS hs], [])
    else .inl ("SERIES MISMATCH: " ++ getS hs ++ " (pressure) ≠ " ++ getS bs ++ " (pressure)")
  else if truthyS hs ∨ truthyS bs then
    .inr (0, [], ["Series (L/S) missing in one product (H:" ++ pyStr hs ++ ", B:" ++ pyStr bs ++ ")"])
  else .inr (0, [], [])

/-- Criterion 3, standard (mandatory, 30 points; lines 151–161), applied
to the *normalized* standards. -/
def standardStep (hs bs : Option String) : CritStep :=
  if truthyS hs ∧ truthyS bs then
    if getS hs = getS bs then .inr (30, ["Standard: " ++ getS hs], [])
    else .inl ("STANDARD MISMATCH: " ++ getS hs ++ " ≠ " ++ getS bs)
  else if truthyS hs ∨ truthyS bs then
    .inr (0, [], ["Standard missing in one product"])
  else .inr (0, [], [])

/-- Criterion 4, DN (25 points; lines 163–183).  A failing `float(...)`
is caught by the `except` and degrades to the warning. -/
def dnStep (hdn bdn : Option String) : ℕ × List String × List String :=
  if truthyS hdn ∧ truthyS bdn then
    match pyFloatOfString (getS hdn), pyFloatOfString (getS bdn) with
    | some hv, some bv =>
      if |hv - bv| ≤ 1/2 then (25, ["DN: " ++ fmtQ1 hv ++ "mm"], [])
      else if |hv - bv| ≤ 2 then
        (12, ["DN close: " ++ fmtQ1 hv ++ "≈" ++ fmtQ1 bv ++ "mm"], [])
      else (0, [], ["DN mismatch: " ++ fmtQ1 hv ++ " vs " ++ fmtQ1 bv ++ "mm"])
    | _, _ => (0, [], ["DN values not comparable"])
  else if truthyS hdn ∨ truthyS bdn then (0, [], ["DN missing in one product"])
  else (0, [], [])

/-- Criterion 5, seat type (5 points; lines 185–193), applied to the
normalized seat types. -/
def seatStep (hs bs : Option String) : ℕ × List String × List String :=
  if truthyS hs ∧ truthyS bs then
    if getS hs = getS bs then (5, ["Seat: " ++ getS hs], [])
    else (0, [], ["Seat mismatch: " ++ getS hs ++ " ≠ " ++ getS bs])
  else if truthyS hs ∨ truthyS bs then (0, [], ["Seat type missing in one product"])
  else (0, [], [])

/-- Gender bonus (validation only, no points; lines 195–200). -/
def genderStep (hg : String) (bg : Option String) : List String × List String :=
  if hg ≠ "" ∧ truthyS bg ∧ hg ≠ "Unknown" ∧ getS bg ≠ "Unknown" then
    if hg = getS bg then (["Gender: " ++ hg], [])
    else ([], ["⚠️ Gender mismatch: " ++ hg ++ " ≠ " ++ getS bg])
  else ([], [])

/-- Python's `'; '.join`. -/
def joinSemicolon : List String → String
  | [] => ""
  | [w] => w
  | w :: rest => w ++ "; " ++ joinSemicolon rest

/-- `calculate_match_score` of `match_pressarmaturen_WITH_SERIES.py`:
returns `(score, reasons, warnings)`. -/
def calculate_match_score (hz : HeizFit) (bl : BalFit) :
    ℕ × List String × List String :=
  let hstd := normalize_standard hz.standard
  let bstd := normalize_standard bl.standard
  let hseat := normalize_seat_type hz.seat_type
  let bseat := normalize_seat_type bl.seat_type
  let hgender := determine_gender_heizmann hz
  match angleStep hz.angle bl.angle with
  | .inl m => (0, [], [m])
  | .inr (ap, ar, aw) =>
  match seriesStep hz.series bl.series with
  | .inl m => (0, [], [m])
  | .inr (sp, sr, sw) =>
  match standardStep hstd bstd with
  | .inl m => (0, [], [m])
  | .inr (tp, tr, tw) =>
    let (dp, dr, dw) := dnStep hz.dn bl.hose_size_mm
    let (ep, er, ew) := seatStep hseat bseat
    let (gr, gw) := genderStep hgender bl.gender
    let score := ap + sp + tp + dp + ep
    let reasons := ar ++ sr ++ tr ++ dr ++ er ++ gr
    let warnings := aw ++ sw ++ tw ++ dw ++ ew ++ gw
    let reasons2 :=
      if warnings ≠ [] then reasons ++ ["[Warnings: " ++ joinSemicolon warnings ++ "]"]
      else reasons
    (score, reasons2, warnings)

/-- Whether the Gate of the series scorer rejects the pair (one of the
three mandatory criteria early-returns), with the message. -/
def rejects (hz : HeizFit) (bl : BalFit) : Option String :=
  match angleStep hz.angle bl.angle with
  | .inl m => some m
  | .inr _ =>
  match seriesStep hz.series bl.series with
  | .inl m => some m
  | .inr _ =>
  match standardStep (normalize_standard hz.standard) (normalize_standard bl.standard) with
  | .inl m => some m
  | .inr _ => none

/-- The inner loop of `match_products` (lines 225–240) for one source
record: keep the best strict improvement among scores at or above the
threshold. -/
def bestLoop (hz : HeizFit) (thr : ℕ) :
    List BalFit → Option BalFit × ℕ → Option BalFit × ℕ
  | [], st => st
  | c :: cs, (bm, bs) =>
    let s := (calculate_match_score hz c).1
    bestLoop hz thr cs (if bs < s ∧ thr ≤ s then (some c, s) else (bm, bs))

/-- Whether `match_products` emits a match entry for `hz` (line 242:
`if best_match:`). -/
def emitsMatch (hz : HeizFit) (cands : List BalFit) (thr : ℕ) : Bool :=
  (bestLoop hz thr cands (none, 0)).1.isSome

/-- The best candidate score for `hz` over `cands` (0 when empty). -/
def bestScore (hz : HeizFit) (cands : List BalFit) : ℕ :=
  (cands.map (fun c => (calculate_match_score hz c).1)).foldl max 0

end Scraping.SeriesMatcher

namespace Scraping.FittingsMatcher

/-!
## `scripts/match_fittings_improved.py`

`ImprovedFittingsMatcher._calculate_score`, `_threads_compatible`,
`_size_compatible` and the selection loop of `match`.
-/

/-- The fields of a Balflex fitting read by the improved matcher. -/
structure BalImp where
  thread_type : Option String
  dash_size : Option String
  category : Option String
  hose_size_mm : Option String
deriving DecidableEq

/-- The fields of a Heizmann fitting read by the improved matcher. -/
structure HeizImp where
  thread_type : Option String
  size : Option String
  category : Option String
  DN : Option String
deriving DecidableEq

/-- Thread-type points (40) of `_calculate_score`. -/
def threadPoints (bal : BalImp) (heiz : HeizImp) : ℕ :=
  let bt := upperAscii (getS bal.thread_type)
  let ht := upperAscii (getS heiz.thread_type)
  if bt ≠ "" ∧ ht ≠ "" then
    if bt = ht then 40
    else if substr "BSP" bt && substr "BSP" ht then 40
    else if substr "ORFS" bt && substr "ORFS" ht then 40
    else if substr "JIC" bt && substr "JIC" ht then 40
    else if substr "METRIC" bt && substr "METRIC" ht then 40
    else if substr "NPT" bt && substr "NPT" ht then 40
    else 0
  else 0

/-- `ImprovedFittingsMatcher._size_compatible`. -/
def size_compatible (dash size : String) : Bool :=
  match pyIntOfString dash with
  | some n => substr (toString n) size
  | none => false

/-- Dash-size points (30/20) of `_calculate_score`. -/
def dashPoints (bal : BalImp) (heiz : HeizImp) : ℕ :=
  let bd := pyReplace (getS bal.dash_size) "-" ""
  let hs := getS heiz.size
  if bd ≠ "" ∧ hs ≠ "" then
    if substr bd hs then 30
    else if size_compatible bd hs then 20
    else 0
  else 0

/-- Category points (15/10) of `_calculate_score`. -/
def categoryPoints (bal : BalImp) (heiz : HeizImp) : ℕ :=
  let bc := upperAscii (getS bal.category)
  let hc := upperAscii (getS heiz.category)
  if bc = hc then 15
  else if (substr "PRESS" bc && substr "PRESS" hc) ||
          (substr "ADAPTER" bc && substr "ADAPTER" hc) ||
          (substr "FLANGE" bc && substr "FLANGE" hc) then 10
  else 0

/-- Hose-size points (15/10) of `_calculate_score`; any parse failure is
swallowed by the bare `except`. -/
def hoseSizePoints (bal : BalImp) (heiz : HeizImp) : ℕ :=
  let bh := getS bal.hose_size_mm
  let hd := getS heiz.DN
  if bh ≠ "" ∧ hd ≠ "" then
    match pyFloatOfString bh with
    | none => 0
    | some bmm =>
      match digitsSearch hd with
      | none => 0
      | some dstr =>
        match pyFloatOfString dstr with
        | none => 0
        | some hmm =>
          if |bmm - hmm| ≤ 3 then 15
          else if |bmm - hmm| ≤ 6 then 10
          else 0
  else 0

/-- `ImprovedFittingsMatcher._calculate_score`. -/
def calculate_score (bal : BalImp) (heiz : HeizImp) : ℕ :=
  threadPoints bal heiz + dashPoints bal heiz + categoryPoints bal heiz
    + hoseSizePoints bal heiz

/-- `ImprovedFittingsMatcher._threads_compatible`. -/
def threads_compatible (bal : BalImp) (heiz : HeizImp) : Bool :=
  let bt := upperAscii (getS bal.thread_type)
  let ht := upperAscii (getS heiz.thread_type)
  if bt = "" || ht = "" then false
  else if bt = ht then true
  else if substr "BSP" bt && substr "BSP" ht then true
  else if substr "ORFS" bt && (substr "ORFS" ht || substr "UNF" ht) then true
  else if substr "JIC" bt && substr "JIC" ht then true
  else if substr "METRIC" bt && substr "METRIC" ht then true
  else if substr "SCHNEIDRING" bt && substr "SCHNEIDRING" ht then true
  else if substr "NPT" bt && substr "NPT" ht then true
  else false

/-- The selection loop of `ImprovedFittingsMatcher.match` (lines 44–57)
for one Balflex record: a candidate is retained only when its score
strictly improves, reaches 55, and the threads are compatible. -/
def bestLoop (bal : BalImp) :
    List HeizImp → Option HeizImp × ℕ → Option HeizImp × ℕ
  | [], st => st
  | h :: hs, (bm, bs) =>
    let s := calculate_score bal h
    bestLoop bal hs
      (if bs < s ∧ 55 ≤ s ∧ threads_compatible bal h then (some h, s) else (bm, bs))

/-- The best match retained for `bal` after scanning `cands`. -/
def bestMatchFor (bal : BalImp) (cands : List HeizImp) : Option HeizImp × ℕ :=
  bestLoop bal cands (none, 0)

end Scraping.FittingsMatcher

namespace Scraping

/-- Python's `float(s)` as a raising computation (`.error` models the
`ValueError`). -/
def pyFloatE (s : String) : Except String ℚ :=
  match pyFloatOfString s with
  | some q => .ok q
  | none => .error "ValueError"

/-- Python's `round(x, 1)` on the exact rational value (ties to even). -/
def round1 (q : ℚ) : ℚ := (roundHalfEven (q * 10) : ℚ) / 10

end Scraping

namespace Scraping.BalflexPdf

/-!
## `Hose_Scraping/scripts/balflex_pdf_parser.py`

`BalflexPDFParser._extract_product_from_row` and its helpers.  A table
row is a list of optional cell strings (`none` models a `None` cell).
-/

/-- `BalflexPDFParser._clean_cell`. -/
def cleanCell : Option String → String
  | none => ""
  | some s => pyReplace (pyStrip s) "\n" " "

/-- `BalflexPDFParser._extract_float`: European comma decimals, first
numeric token; returns `none` on anything unparseable. -/
def extract_float (cell : Option String) : Option ℚ :=
  match cell with
  | none => none
  | some c =>
    let text := pyReplace (pyStrip c) "," "."
    match numSearch text with
    | some tok => pyFloatOfString tok
    | none => none

/-- `BalflexPDFParser._extract_float` with its raising points explicit:
the `float(...)` call can raise, and the surrounding `try/except`
converts the failure to `None`.  Always returns `.ok`. -/
def extract_floatE (cell : Option String) : Except String (Option ℚ) :=
  match cell with
  | none => .ok none
  | some c =>
    let text := pyReplace (pyStrip c) "," "."
    match numSearch text with
    | some tok =>
      match pyFloatE tok with
      | .ok q => .ok (some q)
      | .error _ => .ok none
    | none => .ok none

/-- `BalflexPDFParser._determine_construction`. -/
def determine_construction (model_name standard : String) : String :=
  let combined := upperAscii (model_name ++ " " ++ standard)
  if substr "4SP" combined || substr "4SH" combined || substr "SPIRAL" combined then
    "spiral wire"
  else if substr "R12" combined || substr "R13" combined || substr "R15" combined then
    "spiral wire"
  else if substr "2SC" combined || substr "2SN" combined then "2 wire braid"
  else if substr "1SC" combined || substr "1SN" combined then "1 wire braid"
  else if substr "TEXTILE" combined || substr "TEXMASTER" combined then "textile braid"
  else "wire braid"

/-- A string field that is only stored when non-empty (`if value:`). -/
def strField (s : String) : Option String := if s = "" then none else some s

/-- A numeric field that is only stored when truthy (`if value:`). -/
def qField (q : Option ℚ) : Option ℚ := if truthyQ q then q else none

/-- Cell access `row[i]` (every use is guarded by an index check). -/
def cellAt (row : List (Option String)) (i : ℕ) : Option String :=
  (row.getD i none)

/-- The DN normalization of lines 239–247: regex `DN\s*(\d+)` on the
uppercased cell, falling back to `dn.isdigit()`. -/
def dnFromCell (dn : String) : Option String :=
  if dn ≠ "" then
    match dnSearch (upperAscii dn) with
    | some num => some ("DN" ++ num)
    | none =>
      if dn.toList.all Char.isDigit then some ("DN" ++ dn) else none
  else none

/-- The working-pressure token of lines 268–271:
`wp_cell.split()[0] if ' ' in wp_cell else wp_cell`.  The `.error`
models the `IndexError` when the cell contains a space but no
non-whitespace token. -/
def wpToken (cell : String) : Except Unit String :=
  if substr " " cell then
    match pySplitWs cell with
    | [] => .error ()
    | w :: _ => .ok w
  else .ok cell

/-- The fields of the product dictionary built by
`_extract_product_from_row`. -/
structure Product where
  supplier : String
  model : String
  reference : Option String
  article_number : Option String
  dn : Option String
  inch_size : Option String
  inner_diameter_mm : Option ℚ
  outer_diameter_mm : Option ℚ
  working_pressure_mpa : Option ℚ
  burst_pressure_mpa : Option ℚ
  standard : Option String
  construction : String
deriving DecidableEq

/-- `BalflexPDFParser._extract_product_from_row`.  `.ok none` is the
silent `return None`; `.error ()` is the propagating `IndexError` from
the working-pressure cell. -/
def extract_product_from_row (row : List (Option String))
    (model_name standard : String) : Except Unit (Option Product) :=
  if row.length < 8 then .ok none
  else
    match wpToken (pyStr (cellAt row 7)) with
    | .error _ => .error ()
    | .ok wtok =>
      let reference := strField (cleanCell (cellAt row 0))
      let article_number := strField (cleanCell (cellAt row 1))
      let dn := dnFromCell (cleanCell (cellAt row 2))
      let inch_size := strField (cleanCell (cellAt row 3))
      let inner := qField (extract_float (cellAt row 5))
      let outer := qField (extract_float (cellAt row 6))
      let wp := qField (extract_float (some wtok))
      let bp := if 8 < row.length then qField (extract_float (cellAt row 8)) else none
      let std := strField standard
      let construction := determine_construction model_name standard
      if dn.isSome ∧ article_number.isSome then
        .ok (some ⟨"Balflex", model_name, reference, article_number, dn, inch_size,
                   inner, outer, wp, bp, std, construction⟩)
      else .ok none

end Scraping.BalflexPdf

namespace Scraping.FixBalflex

/-!
## `fix_balflex_hose_sizes.py`

`normalize_dash_code` and `parse_inch_to_mm` (with the raising points of
the latter made explicit).
-/

/-- `normalize_dash_code`. -/
def normalize_dash_code (dash_str : Option String) : Option String :=
  if ¬ truthyS dash_str then none
  else
    let dash_clean := pyReplace (pyStrip (getS dash_str)) " " ""
    match dashSearch dash_clean with
    | some num => some ("-" ++ num)
    | none => none

/-- `normalize_dash_code` as a computation in the exception monad: the
body contains no raising operation, so it is the pure value. -/
def normalize_dash_codeE (dash_str : Option String) : Except String (Option String) :=
  .ok (normalize_dash_code dash_str)

/-- The `INCH_TO_MM` lookup table. -/
def INCH_TO_MM (s : String) : Option ℚ :=
  if s = "3/16" then some (48/10)
  else if s = "1/4" then some (64/10)
  else if s = "5/16" then some (79/10)
  else if s = "3/8" then some (95/10)
  else if s = "1/2" then some (127/10)
  else if s = "5/8" then some (159/10)
  else if s = "3/4" then some (190/10)
  else if s = "7/8" then some (222/10)
  else if s = "1" then some (254/10)
  else if s = "1-1/4" then some (318/10)
  else if s = "1-1/2" then some (381/10)
  else if s = "2" then some (508/10)
  else if s = "2-1/2" then some (635/10)
  else if s = "3" then some (762/10)
  else none

/-- The bare `except: pass` of `parse_inch_to_mm`: any raised error is
swallowed and the function falls through to `return None`. -/
def catchAll (a : Except String (Option ℚ)) : Except String (Option ℚ) :=
  match a with
  | .ok r => .ok r
  | .error _ => .ok none

/-- `parse_inch_to_mm` with its raising points explicit: the two
`float(...)` calls and the division can raise, and the surrounding
`try/except` swallows any failure.  Always returns `.ok`. -/
def parse_inch_to_mmE (inch_str : Option String) : Except String (Option ℚ) :=
  if ¬ truthyS inch_str then .ok none
  else
    let c := pyReplace (pyReplace (pyStrip (getS inch_str)) "\"" "") " " ""
    match INCH_TO_MM c with
    | some v => .ok (some v)
    | none =>
      let attempt : Except String (Option ℚ) :=
        if substr "/" c then
          match c.toList.splitOn '/' with
          | [p1, p2] =>
            match pyFloatE (String.mk p1) with
            | .error e => .error e
            | .ok n =>
              match pyFloatE (String.mk p2) with
              | .error e => .error e
              | .ok d =>
                if d = 0 then .error "ZeroDivisionError"
                else .ok (some (round1 (n / d * (254/10))))
          | _ => .ok none
        else .ok none
      catchAll attempt

/-- `parse_inch_to_mm` as the plain optional value it returns. -/
def parse_inch_to_mm (inch_str : Option String) : Option ℚ :=
  (parse_inch_to_mmE inch_str).toOption.join

end Scraping.FixBalflex

namespace Scraping.Ex

/-! ## Concrete records used by the claim theorems and witnesses -/

/-- The source record of the end-to-end scenario. -/
def hoseSrc : ProductMatcher.HoseRec :=
  ⟨some "DN12", some 25, none, some "DIN EN 857 2SC", some "2 wire braid", none⟩

/-- The target record of the end-to-end scenario (pressure in bar). -/
def hoseTgt : ProductMatcher.HoseRec :=
  ⟨some "DN12", none, some 250, some "DIN EN 857 2SC", some "2 wire braid", none⟩

/-- A textile-braid hose record. -/
def hoseTextile : ProductMatcher.HoseRec :=
  ⟨none, none, none, none, some "textile braid", none⟩

/-- A 2-wire-braid hose record. -/
def hoseWire : ProductMatcher.HoseRec :=
  ⟨none, none, none, none, some "2 wire braid", none⟩

/-- A hose record with every field absent. -/
def hoseEmpty : ProductMatcher.HoseRec := ⟨none, none, none, none, none, none⟩

/-- A hose record carrying only the EN 853 standard. -/
def hose853 : ProductMatcher.HoseRec :=
  ⟨none, none, none, some "DIN EN 853 1SN", none, none⟩

/-- A hose record carrying only the EN 857 standard. -/
def hose857 : ProductMatcher.HoseRec :=
  ⟨none, none, none, some "DIN EN 857 2SC", none, none⟩

/-- A hose record carrying only a DN. -/
def hoseDNonly : ProductMatcher.HoseRec :=
  ⟨some "DN12", none, none, none, none, none⟩

/-- A Heizmann fitting with only a 90° angle. -/
def heizAngle90 : SeriesMatcher.HeizFit :=
  ⟨some "90°", none, none, none, none, none, none, none⟩

/-- A Balflex fitting with only a 45° angle. -/
def balAngle45 : SeriesMatcher.BalFit := ⟨some "45°", none, none, none, none, none⟩

/-- A Balflex fitting with only a 90° angle. -/
def balAngle90 : SeriesMatcher.BalFit := ⟨some "90°", none, none, none, none, none⟩

/-- A Balflex fitting (improved matcher) without a thread type but with
dash size, category and hose size that score 60 points. -/
def balNoThread : FittingsMatcher.BalImp :=
  ⟨none, some "-8", some "PRESS", some "12.7"⟩

/-- A Heizmann fitting (improved matcher) with a BSP thread. -/
def heizBsp : FittingsMatcher.HeizImp :=
  ⟨some "BSP", some "8", some "PRESS", some "DN12"⟩

/-- A complete Balflex catalog data row. -/
def rowFull : List (Option String) :=
  [some "4SP-04-F", some "10.1008.04F", some "DN6", some "1/4\"", some "-4",
   some "6.5", some "17,4", some "45,0 6600"]

/-- A data row yielding an inch size and a reference but neither a DN
nor an article number. -/
def rowNoDn : List (Option String) :=
  [some "4SP-04-F", none, some "", some "1/4\"", some "-4",
   some "6.5", some "17,4", some "45,0 6600"]

end Scraping.Ex

namespace Scraping

/-! ## Claim theorems -/

/-- C1 counterexample: the end-to-end scenario does produce score 90,
but the quality tier derived from score 90 by
`ProductMatcher._score_to_quality` is the string "Excellent Match", not
the claim's quoted "Excellent". -/
theorem c1_quality_counterexample :
    ProductMatcher.calculate_match_score Ex.hoseSrc Ex.hoseTgt =
      some (90, ["DN match: DN12", "Pressure match: 25.0 MPa ≈ 25.0 MPa",
                 "Standard match: EN 857", "Construction match: 2 wire braid"]) ∧
    ProductMatcher.score_to_quality 90 ≠ "Excellent" := by
  constructor
  · decide
  · decide

/-- C1 (amended): for the end-to-end scenario the Gate proceeds, the
scorer returns exactly 90 points (DN +30, pressure +25 after the
bar→MPa conversion, standard +20, construction +15), and the quality
tier derived from score 90 is "Excellent Match". -/
theorem c1_end_to_end_scenario :
    ProductMatcher.hoseGateStr Ex.hoseSrc.construction Ex.hoseTgt.construction = none ∧
    (ProductMatcher.dnCrit Ex.hoseSrc.dn Ex.hoseTgt.dn).map Prod.fst = some 30 ∧
    (ProductMatcher.pressureCrit Ex.hoseSrc.working_pressure_mpa
      Ex.hoseSrc.working_pressure_bar Ex.hoseTgt.working_pressure_mpa
      Ex.hoseTgt.working_pressure_bar).1 = 25 ∧
    (ProductMatcher.standardCrit Ex.hoseSrc.standard Ex.hoseTgt.standard).1 = 20 ∧
    (ProductMatcher.constructionCrit Ex.hoseSrc.construction Ex.hoseTgt.construction).1 = 15 ∧
    (ProductMatcher.calculate_match_score Ex.hoseSrc Ex.hoseTgt).map Prod.fst = some 90 ∧
    ProductMatcher.score_to_quality 90 = "Excellent Match" := by
  refine ⟨by decide, by decide, by decide, by decide, by decide, by decide, by decide⟩

/-- C2 counterexample: on a Gate-rejected hose pair (textile vs wire
braid) the hose scorer returns score 0 but a NON-empty reasons list
holding the rejection message, refuting the claim's "empty reasons
list". -/
theorem c2_hose_reject_counterexample :
    ProductMatcher.calculate_match_score Ex.hoseTextile Ex.hoseWire =
      some (0, ["Construction mismatch: textile vs wire - INCOMPATIBLE"]) ∧
    (["Construction mismatch: textile vs wire - INCOMPATIBLE"] : List String) ≠ [] := by
  refine ⟨by decide, by decide⟩

/-- C2 (amended): whenever the Gate rejects, the score is exactly 0; the
series-validated fittings scorer additionally returns an empty reasons
list (the message goes to the warnings), while the hose scorer returns
the single rejection message as its reasons list. -/
theorem c2_gate_monotonicity :
    (∀ b h r, ProductMatcher.hoseGateStr b.construction h.construction = some r →
      ProductMatcher.calculate_match_score b h = some (0, [r])) ∧
    (∀ hz bl m, SeriesMatcher.rejects hz bl = some m →
      SeriesMatcher.calculate_match_score hz bl = (0, [], [m])) := by
  constructor
  · intro b h r hr
    unfold ProductMatcher.calculate_match_score
    rw [hr]
  · intro hz bl m hm
    unfold SeriesMatcher.rejects at hm
    unfold SeriesMatcher.calculate_match_score
    cases hA : SeriesMatcher.angleStep hz.angle bl.angle with
    | inl a =>
      rw [hA] at hm
      simp only [hA]
      injection hm with h
      rw [h]
    | inr a =>
      rw [hA] at hm
      simp only [hA]
      cases hS : SeriesMatcher.seriesStep hz.series bl.series with
      | inl s =>
        rw [hS] at hm
        simp only [hS]
        simp only [] at hm
        obtain ⟨a1, a2, a3⟩ := a
        injection hm with h
        rw [h]
      | inr s =>
        rw [hS] at hm
        simp only [hS]
        cases hT : SeriesMatcher.standardStep (SeriesMatcher.normalize_standard hz.standard)
            (SeriesMatcher.normalize_standard bl.standard) with
        | inl t =>
          rw [hT] at hm
          simp only [hT]
          obtain ⟨a1, a2, a3⟩ := a
          obtain ⟨s1, s2, s3⟩ := s
          injection hm with h
          rw [h]
        | inr t =>
          rw [hT] at hm
          exact Option.noConfusion hm

/-- C2 witness: the amended theorem applied to a concrete rejected hose
pair and a concrete rejected fitting pair. -/
theorem c2_witness :
    ProductMatcher.calculate_match_score Ex.hoseTextile Ex.hoseWire =
      some (0, ["Construction mismatch: textile vs wire - INCOMPATIBLE"]) ∧
    SeriesMatcher.calculate_match_score Ex.heizAngle90 Ex.balAngle45 =
      (0, [], ["ANGLE MISMATCH: 90° ≠ 45°"]) :=
  ⟨c2_gate_monotonicity.1 Ex.hoseTextile Ex.hoseWire
      "Construction mismatch: textile vs wire - INCOMPATIBLE" (by decide),
   c2_gate_monotonicity.2 Ex.heizAngle90 Ex.balAngle45
      "ANGLE MISMATCH: 90° ≠ 45°" (by decide)⟩

/-- C3: a record stated as 350 bar scored against a record stated as
35 MPa earns the same pressure points (25) as two records both stated
as 35 MPa, and — all other fields equal — the same total score. -/
theorem c3_unit_conversion_round_trip :
    ∀ (bdn hdn bstd hstd bcon hcon : Option String) (bid hid : Option ℚ),
      ProductMatcher.pressureCrit none (some 350) (some 35) none =
        ProductMatcher.pressureCrit (some 35) none (some 35) none ∧
      (ProductMatcher.pressureCrit none (some 350) (some 35) none).1 = 25 ∧
      ProductMatcher.calculate_match_score ⟨bdn, none, some 350, bstd, bcon, bid⟩
          ⟨hdn, some 35, none, hstd, hcon, hid⟩ =
        ProductMatcher.calculate_match_score ⟨bdn, some 35, none, bstd, bcon, bid⟩
          ⟨hdn, some 35, none, hstd, hcon, hid⟩ := by
  intro bdn hdn bstd hstd bcon hcon bid hid
  refine ⟨by decide, by decide, ?_⟩
  unfold ProductMatcher.calculate_match_score
  try dsimp only
  rw [show ProductMatcher.pressureCrit none (some 350) (some 35) none =
        ProductMatcher.pressureCrit (some 35) none (some 35) none from by decide]

/-- C4: between standards "DIN EN 853 1SN" and "DIN EN 857 2SC" the
standard criterion awards exactly the EN-853/EN-857 cross-compatibility
half points (10), never the full 20, in either direction. -/
theorem c4_standard_family_precision :
    ∀ b h : ProductMatcher.HoseRec,
      b.standard = some "DIN EN 853 1SN" → h.standard = some "DIN EN 857 2SC" →
      ProductMatcher.standardCrit b.standard h.standard =
        (10, ["Standard compatible: EN 853 / EN 857"]) ∧
      ProductMatcher.standardCrit h.standard b.standard =
        (10, ["Standard compatible: EN 857 / EN 853"]) ∧
      (ProductMatcher.standardCrit b.standard h.standard).1 ≠ 20 ∧
      (ProductMatcher.standardCrit h.standard b.standard).1 ≠ 20 := by
  intro b h hb hh
  rw [hb, hh]
  refine ⟨by decide, by decide, by decide, by decide⟩

/-- C4 witness: the theorem applied to two concrete records carrying
those standards. -/
theorem c4_witness :
    ProductMatcher.standardCrit Ex.hose853.standard Ex.hose857.standard =
      (10, ["Standard compatible: EN 853 / EN 857"]) ∧
    ProductMatcher.standardCrit Ex.hose857.standard Ex.hose853.standard =
      (10, ["Standard compatible: EN 857 / EN 853"]) ∧
    (ProductMatcher.standardCrit Ex.hose853.standard Ex.hose857.standard).1 ≠ 20 ∧
    (ProductMatcher.standardCrit Ex.hose857.standard Ex.hose853.standard).1 ≠ 20 :=
  c4_standard_family_precision Ex.hose853 Ex.hose857 rfl rfl

/-- A falsy optional string lowercases to the empty string. -/
theorem lower_getS_empty (o : Option String) (h : truthyS o = false) :
    lowerAscii (getS o) = "" := by
  rcases o with _ | s
  · rfl
  · simp [truthyS] at h
    rw [getS, Option.getD_some, h]
    rfl

/-- A falsy optional string uppercases to the empty string. -/
theorem upper_getS_empty (o : Option String) (h : truthyS o = false) :
    upperAscii (getS o) = "" := by
  rcases o with _ | s
  · rfl
  · simp [truthyS] at h
    rw [getS, Option.getD_some, h]
    rfl

/-- C5 counterexample: a pair whose thread type is absent on the Balflex
side scores 60 (at the 55 threshold), yet `_threads_compatible` is False
and the selection loop refuses the candidate, so the pair IS excluded —
refuting the claim for the thread-type attribute. -/
theorem c5_thread_absence_counterexample :
    Ex.balNoThread.thread_type = none ∧
    FittingsMatcher.calculate_score Ex.balNoThread Ex.heizBsp = 60 ∧
    FittingsMatcher.threads_compatible Ex.balNoThread Ex.heizBsp = false ∧
    FittingsMatcher.bestMatchFor Ex.balNoThread [Ex.heizBsp] = (none, 0) := by
  refine ⟨rfl, by decide, by decide, by decide⟩

/-- C5 (amended): an absent construction never makes the hose Gate
reject, and an absent angle, series, or standard never makes the
series-validated fittings scorer reject (the criterion awards 0 points);
but an absent thread type on either side makes `_threads_compatible`
False, which excludes the candidate from selection in the improved
fittings matcher. -/
theorem c5_missing_attribute_handling :
    (∀ b h : ProductMatcher.HoseRec,
      truthyS b.construction = false ∨ truthyS h.construction = false →
      ProductMatcher.hoseGateStr b.construction h.construction = none) ∧
    (∀ ha ba, truthyS ha = false ∨ truthyS ba = false →
      ∃ w, SeriesMatcher.angleStep ha ba = .inr (0, [], w)) ∧
    (∀ hs bs, truthyS hs = false ∨ truthyS bs = false →
      ∃ w, SeriesMatcher.seriesStep hs bs = .inr (0, [], w)) ∧
    (∀ hs bs, truthyS hs = false ∨ truthyS bs = false →
      ∃ w, SeriesMatcher.standardStep hs bs = .inr (0, [], w)) ∧
    (∀ bal heiz, truthyS bal.thread_type = false ∨ truthyS heiz.thread_type = false →
      FittingsMatcher.threads_compatible bal heiz = false) ∧
    (∀ bal cands st, (∀ h ∈ cands, FittingsMatcher.threads_compatible bal h = false) →
      FittingsMatcher.bestLoop bal cands st = st) := by
  refine ⟨?_, ?_, ?_, ?_, ?_, ?_⟩
  · intro b h hcase
    unfold ProductMatcher.hoseGateStr
    rcases hcase with hc | hc
    · rw [lower_getS_empty _ hc]; simp
    · rw [lower_getS_empty _ hc]; simp
  · intro ha ba hcase
    unfold SeriesMatcher.angleStep
    split_ifs with h1 h2 h3
    · exact absurd h1 (by rcases hcase with h | h <;> simp [h])
    · exact absurd h1 (by rcases hcase with h | h <;> simp [h])
    · exact ⟨_, rfl⟩
    · exact ⟨_, rfl⟩
  · intro hs bs hcase
    unfold SeriesMatcher.seriesStep
    split_ifs with h1 h2 h3
    · exact absurd h1 (by rcases hcase with h | h <;> simp [h])
    · exact absurd h1 (by rcases hcase with h | h <;> simp [h])
    · exact ⟨_, rfl⟩
    · exact ⟨_, rfl⟩
  · intro hs bs hcase
    unfold SeriesMatcher.standardStep
    split_ifs with h1 h2 h3
    · exact absurd h1 (by rcases hcase with h | h <;> simp [h])
    · exact absurd h1 (by rcases hcase with h | h <;> simp [h])
    · exact ⟨_, rfl⟩
    · exact ⟨_, rfl⟩
  · intro bal heiz hcase
    unfold FittingsMatcher.threads_compatible
    rcases hcase with h | h
    · rw [upper_getS_empty _ h]; simp
    · rw [upper_getS_empty _ h]; simp
  · intro bal cands
    induction cands with
    | nil => intro st _; rfl
    | cons h t ih =>
      intro st hall
      rcases st with ⟨bm, bs⟩
      have hh := hall h (List.mem_cons_self h t)
      unfold FittingsMatcher.bestLoop
      simp only [hh]
      rw [if_neg (by simp)]
      exact ih (bm, bs) (fun x hx => hall x (List.mem_cons_of_mem _ hx))

/-- C5 witness: the amended theorem applied at concrete records with the
relevant attribute absent. -/
theorem c5_witness :
    ProductMatcher.hoseGateStr Ex.hoseEmpty.construction Ex.hoseWire.construction = none ∧
    (∃ w, SeriesMatcher.angleStep none (some "45°") = .inr (0, [], w)) ∧
    FittingsMatcher.threads_compatible Ex.balNoThread Ex.heizBsp = false ∧
    FittingsMatcher.bestLoop Ex.balNoThread [Ex.heizBsp] (none, 0) = (none, 0) :=
  ⟨c5_missing_attribute_handling.1 Ex.hoseEmpty Ex.hoseWire (Or.inl (by decide)),
   c5_missing_attribute_handling.2.1 none (some "45°") (Or.inl rfl),
   c5_missing_attribute_handling.2.2.2.2.1 Ex.balNoThread Ex.heizBsp (Or.inl (by decide)),
   c5_missing_attribute_handling.2.2.2.2.2 Ex.balNoThread [Ex.heizBsp] (none, 0)
     (by intro x hx; rw [List.mem_singleton] at hx; subst hx; decide)⟩

/-- Folding `max` from a larger start: the start factors out. -/
theorem foldl_max_shift {α : Type} [LinearOrder α] :
    ∀ (l : List α) (a b : α), l.foldl max (max a b) = max a (l.foldl max b) := by
  intro l
  induction l with
  | nil => intro a b; rfl
  | cons c t ih =>
    intro a b
    show t.foldl max (max (max a b) c) = max a (t.foldl max (max b c))
    rw [max_assoc, ih]

/-- The running maximum never drops below its start. -/
theorem le_foldl_max {α β : Type} [LinearOrder α] (g : β → α) :
    ∀ (l : List β) (a : α), a ≤ l.foldl (fun x t => max x (g t)) a := by
  intro l
  induction l with
  | nil => intro a; exact le_refl a
  | cons c t ih =>
    intro a
    exact le_trans (le_max_left a (g c)) (ih (max a (g c)))

/-- Invariant of the hose matcher's inner loop: it raises no exception
when every pairwise score is defined, its best score is the running
maximum of the scores, and a best match is retained exactly when the
best score strictly improved on the start. -/
theorem hose_bestLoop_spec (b : ProductMatcher.HoseRec) :
    ∀ (ts : List ProductMatcher.HoseRec) (bm : Option ProductMatcher.HoseRec)
      (bs : ℚ) (br : List String),
      (∀ t ∈ ts, (ProductMatcher.calculate_match_score b t).isSome = true) →
      ∃ bm' bs' br', ProductMatcher.bestLoop b ts (bm, bs, br) = some (bm', bs', br') ∧
        bs' = ts.foldl
          (fun a t => max a (((ProductMatcher.calculate_match_score b t).map Prod.fst).getD 0)) bs ∧
        bm'.isSome = (bm.isSome || decide (bs < bs')) := by
  intro ts
  induction ts with
  | nil =>
    intro bm bs br _
    exact ⟨bm, bs, br, rfl, rfl, by simp⟩
  | cons t ts ih =>
    intro bm bs br hall
    have ht := hall t (List.mem_cons_self t ts)
    obtain ⟨⟨s, rs⟩, hs⟩ := Option.isSome_iff_exists.mp ht
    have hrest : ∀ x ∈ ts, (ProductMatcher.calculate_match_score b x).isSome = true :=
      fun x hx => hall x (List.mem_cons_of_mem _ hx)
    unfold ProductMatcher.bestLoop
    rw [hs]
    dsimp only
    by_cases hlt : bs < s
    · rw [if_pos hlt]
      obtain ⟨bm', bs', br', h1, h2, h3⟩ := ih (some t) s rs hrest
      refine ⟨bm', bs', br', h1, ?_, ?_⟩
      · rw [h2, List.foldl_cons]
        congr 1
        rw [hs]
        simp [max_eq_right (le_of_lt hlt)]
      · have hsle : s ≤ bs' := by
          rw [h2]; exact le_foldl_max _ ts s
        have : bs < bs' := lt_of_lt_of_le hlt hsle
        rw [h3]
        simp [this]
    · rw [if_neg hlt]
      obtain ⟨bm', bs', br', h1, h2, h3⟩ := ih bm bs br hrest
      refine ⟨bm', bs', br', h1, ?_, h3⟩
      rw [h2, List.foldl_cons]
      congr 1
      rw [hs]
      simp [max_eq_left (not_lt.mp hlt)]

/-- The threshold-filtered running maximum never drops below its start. -/
theorem le_foldl_thr (thr : ℕ) :
    ∀ (l : List ℕ) (a : ℕ),
      a ≤ l.foldl (fun x s => if x < s ∧ thr ≤ s then s else x) a := by
  intro l
  induction l with
  | nil => intro a; exact le_refl a
  | cons c t ih =>
    intro a
    refine le_trans ?_ (ih _)
    dsimp only
    split_ifs with h
    · exact le_of_lt h.1
    · exact le_refl a

/-- Invariant of the series matcher's inner loop: the best score is the
threshold-filtered running maximum, and a best match is retained exactly
when that maximum strictly improved on the start. -/
theorem series_bestLoop_spec (hz : SeriesMatcher.HeizFit) (thr : ℕ) :
    ∀ (cands : List SeriesMatcher.BalFit) (bm : Option SeriesMatcher.BalFit) (bs : ℕ),
      ∃ bm' bs', SeriesMatcher.bestLoop hz thr cands (bm, bs) = (bm', bs') ∧
        bs' = (cands.map (fun c => (SeriesMatcher.calculate_match_score hz c).1)).foldl
          (fun x s => if x < s ∧ thr ≤ s then s else x) bs ∧
        bm'.isSome = (bm.isSome || decide (bs < bs')) := by
  intro cands
  induction cands with
  | nil =>
    intro bm bs
    exact ⟨bm, bs, rfl, rfl, by simp⟩
  | cons c t ih =>
    intro bm bs
    unfold SeriesMatcher.bestLoop
    dsimp only
    rw [List.map_cons, List.foldl_cons]
    by_cases hcond : bs < (SeriesMatcher.calculate_match_score hz c).1 ∧
        thr ≤ (SeriesMatcher.calculate_match_score hz c).1
    · rw [if_pos hcond, if_pos hcond]
      obtain ⟨bm', bs', h1, h2, h3⟩ := ih (some c) (SeriesMatcher.calculate_match_score hz c).1
      refine ⟨bm', bs', h1, h2, ?_⟩
      have hle : (SeriesMatcher.calculate_match_score hz c).1 ≤ bs' := by
        rw [h2]; exact le_foldl_thr thr _ _
      have : bs < bs' := lt_of_lt_of_le hcond.1 hle
      rw [h3]
      simp [this]
    · rw [if_neg hcond, if_neg hcond]
      exact ih bm bs

/-- Above the threshold, the filtered running maximum is the plain one. -/
theorem gfold_ge (thr : ℕ) :
    ∀ (l : List ℕ) (a : ℕ), thr ≤ a →
      l.foldl (fun x s => if x < s ∧ thr ≤ s then s else x) a = l.foldl max a := by
  intro l
  induction l with
  | nil => intro a _; rfl
  | cons c t ih =>
    intro a ha
    rw [List.foldl_cons, List.foldl_cons]
    by_cases hc : a < c ∧ thr ≤ c
    · rw [if_pos hc, max_eq_right (le_of_lt hc.1)]
      exact ih c hc.2
    · have hac : ¬ a < c := by
        intro hlt
        exact hc ⟨hlt, le_trans ha (le_of_lt hlt)⟩
      rw [if_neg hc, max_eq_left (not_lt.mp hac)]
      exact ih a ha

/-- From start 0 and a positive threshold, the filtered running maximum
is the plain maximum when that reaches the threshold, else 0. -/
theorem gfold_zero (thr : ℕ) (hthr : 0 < thr) :
    ∀ l : List ℕ,
      l.foldl (fun x s => if x < s ∧ thr ≤ s then s else x) 0 =
        if thr ≤ l.foldl max 0 then l.foldl max 0 else 0 := by
  intro l
  induction l with
  | nil => simp
  | cons c t ih =>
    rw [List.foldl_cons, List.foldl_cons]
    by_cases hc : thr ≤ c
    · rw [if_pos ⟨lt_of_lt_of_le hthr hc, hc⟩, gfold_ge thr t c hc]
      have h1 : max 0 c = c := max_eq_right (Nat.zero_le c)
      rw [h1]
      have h2 : thr ≤ t.foldl max c := le_trans hc (le_foldl_max id t c)
      rw [if_pos h2]
    · have hnc : ¬ ((0:ℕ) < c ∧ thr ≤ c) := fun h => hc h.2
      rw [if_neg hnc, ih]
      have h1 : max (0:ℕ) c = c := max_eq_right (Nat.zero_le c)
      rw [h1]
      have hshift : t.foldl max c = max c (t.foldl max 0) := by
        have h2 := foldl_max_shift t c 0
        rw [max_eq_left (Nat.zero_le c)] at h2
        exact h2
      rw [hshift]
      by_cases hM : thr ≤ t.foldl max 0
      · have hcM : c ≤ t.foldl max 0 := le_of_lt (lt_of_lt_of_le (not_le.mp hc) hM)
        rw [max_eq_right hcM, if_pos hM]
      · have hno : ¬ thr ≤ max c (t.foldl max 0) := by
          rw [le_max_iff]
          exact not_or.mpr ⟨hc, hM⟩
        rw [if_neg hM, if_neg hno]

/-- C6: in both matchers, a source record whose best candidate score
equals the configured threshold exactly produces a match entry, and one
whose best score is strictly below the threshold produces none (hose
matcher: fixed threshold 30; series matcher: any positive threshold). -/
theorem c6_threshold_boundary :
    (∀ b targets,
      (∀ t ∈ targets, (ProductMatcher.calculate_match_score b t).isSome = true) →
      (ProductMatcher.bestScore b targets = 30 →
        ProductMatcher.emitsMatch b targets = some true) ∧
      (ProductMatcher.bestScore b targets < 30 →
        ProductMatcher.emitsMatch b targets = some false)) ∧
    (∀ hz cands thr, 0 < thr →
      (SeriesMatcher.bestScore hz cands = thr →
        SeriesMatcher.emitsMatch hz cands thr = true) ∧
      (SeriesMatcher.bestScore hz cands < thr →
        SeriesMatcher.emitsMatch hz cands thr = false)) := by
  constructor
  · intro b ts hall
    obtain ⟨bm', bs', br', hloop, hbs, hsome⟩ := hose_bestLoop_spec b ts none 0 [] hall
    have hbest : ProductMatcher.bestScore b ts = bs' := by
      unfold ProductMatcher.bestScore
      rw [List.foldl_map, hbs]
    constructor
    · intro h30
      have h1 : bs' = 30 := hbest.symm.trans h30
      subst h1
      unfold ProductMatcher.emitsMatch
      rw [hloop]
      simp only [Option.map_some']
      have d1 : decide ((0:ℚ) < 30) = true := by decide
      have d2 : decide ((30:ℚ) ≤ 30) = true := by decide
      rw [hsome]
      simp [d1, d2]
    · intro hlt
      have h1 : bs' < 30 := hbest ▸ hlt
      unfold ProductMatcher.emitsMatch
      rw [hloop]
      simp only [Option.map_some']
      have hdec : decide ((30:ℚ) ≤ bs') = false := decide_eq_false (not_le.mpr h1)
      simp [hdec]
  · intro hz cands thr hthr
    obtain ⟨bm', bs', hloop, hbs, hsome⟩ := series_bestLoop_spec hz thr cands none 0
    have hchar : bs' =
        if thr ≤ SeriesMatcher.bestScore hz cands then SeriesMatcher.bestScore hz cands
        else 0 := by
      unfold SeriesMatcher.bestScore
      rw [hbs, gfold_zero thr hthr]
    constructor
    · intro heq
      unfold SeriesMatcher.emitsMatch
      rw [hloop]
      have h1 : bs' = thr := by rw [hchar, heq, if_pos (le_refl thr)]
      dsimp only
      rw [hsome, h1]
      simp [hthr]
    · intro hlt
      unfold SeriesMatcher.emitsMatch
      rw [hloop]
      have h1 : bs' = 0 := by rw [hchar, if_neg (not_le.mpr hlt)]
      dsimp only
      rw [hsome, h1]
      simp

/-- C6 witness: a hose pair scoring exactly the threshold 30 is emitted,
and a fitting pair scoring exactly a configured threshold of 20 is
emitted. -/
theorem c6_witness :
    ProductMatcher.emitsMatch Ex.hoseDNonly [Ex.hoseDNonly] = some true ∧
    SeriesMatcher.emitsMatch Ex.heizAngle90 [Ex.balAngle90] 20 = true :=
  ⟨(c6_threshold_boundary.1 Ex.hoseDNonly [Ex.hoseDNonly] (by decide)).1 (by decide),
   (c6_threshold_boundary.2 Ex.heizAngle90 [Ex.balAngle90] 20 (by decide)).1 (by decide)⟩

/-- The DN criterion awards at most 30 points. -/
theorem dnCrit_le (a b : Option String) (p : ℕ × List String)
    (h : ProductMatcher.dnCrit a b = some p) : p.1 ≤ 30 := by
  unfold ProductMatcher.dnCrit at h
  try dsimp only at h
  repeat' split at h
  all_goals try exact Option.noConfusion h
  all_goals injection h with h2
  all_goals rw [← h2]
  all_goals norm_num

/-- The pressure criterion awards at most 25 points. -/
theorem pressureCrit_le (a b c d : Option ℚ) :
    (ProductMatcher.pressureCrit a b c d).1 ≤ 25 := by
  unfold ProductMatcher.pressureCrit
  try dsimp only
  repeat' split
  all_goals norm_num

/-- The standard fallback awards at most 20 points. -/
theorem stdFallback_le (a b : String) : (ProductMatcher.stdFallback a b).1 ≤ 20 := by
  unfold ProductMatcher.stdFallback
  try dsimp only
  repeat' split
  all_goals norm_num

/-- The standard criterion awards at most 20 points. -/
theorem standardCrit_le (a b : Option String) :
    (ProductMatcher.standardCrit a b).1 ≤ 20 := by
  unfold ProductMatcher.standardCrit
  try dsimp only
  repeat' split
  all_goals try norm_num
  all_goals apply stdFallback_le

/-- The construction criterion awards at most 15 points. -/
theorem constructionCrit_le (a b : Option String) :
    (ProductMatcher.constructionCrit a b).1 ≤ 15 := by
  unfold ProductMatcher.constructionCrit
  try dsimp only
  repeat' split
  all_goals norm_num

/-- The inner-diameter criterion awards at most 10 points. -/
theorem innerCrit_le (a b : Option ℚ) : (ProductMatcher.innerCrit a b).1 ≤ 10 := by
  unfold ProductMatcher.innerCrit
  try dsimp only
  repeat' split
  all_goals norm_num

/-- Thread points are at most 40. -/
theorem threadPoints_le (bal : FittingsMatcher.BalImp) (heiz : FittingsMatcher.HeizImp) :
    FittingsMatcher.threadPoints bal heiz ≤ 40 := by
  unfold FittingsMatcher.threadPoints
  try dsimp only
  repeat' split
  all_goals norm_num

/-- Dash points are at most 30. -/
theorem dashPoints_le (bal : FittingsMatcher.BalImp) (heiz : FittingsMatcher.HeizImp) :
    FittingsMatcher.dashPoints bal heiz ≤ 30 := by
  unfold FittingsMatcher.dashPoints
  try dsimp only
  repeat' split
  all_goals norm_num

/-- Category points are at most 15. -/
theorem categoryPoints_le (bal : FittingsMatcher.BalImp) (heiz : FittingsMatcher.HeizImp) :
    FittingsMatcher.categoryPoints bal heiz ≤ 15 := by
  unfold FittingsMatcher.categoryPoints
  try dsimp only
  repeat' split
  all_goals norm_num

/-- Hose-size points are at most 15. -/
theorem hoseSizePoints_le (bal : FittingsMatcher.BalImp) (heiz : FittingsMatcher.HeizImp) :
    FittingsMatcher.hoseSizePoints bal heiz ≤ 15 := by
  unfold FittingsMatcher.hoseSizePoints
  try dsimp only
  repeat' split
  all_goals norm_num

/-- A non-rejecting angle step awards at most 20 points. -/
theorem angleStep_le (ha ba : Option String) (x : ℕ × List String × List String)
    (h : SeriesMatcher.angleStep ha ba = .inr x) : x.1 ≤ 20 := by
  unfold SeriesMatcher.angleStep at h
  try dsimp only at h
  split_ifs at h
  all_goals injection h with h2
  all_goals rw [← h2]
  all_goals norm_num

/-- A non-rejecting series step awards at most 20 points. -/
theorem seriesStep_le (hs bs : Option String) (x : ℕ × List String × List String)
    (h : SeriesMatcher.seriesStep hs bs = .inr x) : x.1 ≤ 20 := by
  unfold SeriesMatcher.seriesStep at h
  try dsimp only at h
  split_ifs at h
  all_goals injection h with h2
  all_goals rw [← h2]
  all_goals norm_num

/-- A non-rejecting standard step awards at most 30 points. -/
theorem standardStep_le (hs bs : Option String) (x : ℕ × List String × List String)
    (h : SeriesMatcher.standardStep hs bs = .inr x) : x.1 ≤ 30 := by
  unfold SeriesMatcher.standardStep at h
  try dsimp only at h
  split_ifs at h
  all_goals injection h with h2
  all_goals rw [← h2]
  all_goals norm_num

/-- The DN step awards at most 25 points. -/
theorem dnStep_le (a b : Option String) : (SeriesMatcher.dnStep a b).1 ≤ 25 := by
  unfold SeriesMatcher.dnStep
  try dsimp only
  repeat' split
  all_goals norm_num

/-- The seat step awards at most 5 points. -/
theorem seatStep_le (a b : Option String) : (SeriesMatcher.seatStep a b).1 ≤ 5 := by
  unfold SeriesMatcher.seatStep
  try dsimp only
  repeat' split
  all_goals norm_num

/-- C7: every scorer variant stays within 0 and 100: the hose scorer on
any pair on which it returns (its DN criterion can raise), and the
improved-fittings and series-validated scorers on all pairs. -/
theorem c7_score_boundedness :
    (∀ b h q rs, ProductMatcher.calculate_match_score b h = some (q, rs) →
      0 ≤ q ∧ q ≤ 100) ∧
    (∀ bal heiz, FittingsMatcher.calculate_score bal heiz ≤ 100) ∧
    (∀ hz bl, (SeriesMatcher.calculate_match_score hz bl).1 ≤ 100) := by
  refine ⟨?_, ?_, ?_⟩
  · intro b h q rs hc
    unfold ProductMatcher.calculate_match_score at hc
    cases hg : ProductMatcher.hoseGateStr b.construction h.construction with
    | some r =>
      simp only [hg] at hc
      rw [Option.some.injEq, Prod.mk.injEq] at hc
      obtain ⟨hq, -⟩ := hc
      rw [← hq]
      norm_num
    | none =>
      simp only [hg] at hc
      cases hd : ProductMatcher.dnCrit b.dn h.dn with
      | none =>
        simp only [hd] at hc
        exact Option.noConfusion hc
      | some p =>
        rcases p with ⟨dp, dr⟩
        simp only [hd] at hc
        rw [Option.some.injEq, Prod.mk.injEq] at hc
        obtain ⟨hq, -⟩ := hc
        rw [if_pos (by norm_num : (0:ℕ) < 0 + 30 + 25 + 20 + 15 + 10)] at hq
        rw [← hq]
        have hdp : dp ≤ 30 := dnCrit_le _ _ _ hd
        have hpp := pressureCrit_le b.working_pressure_mpa b.working_pressure_bar
          h.working_pressure_mpa h.working_pressure_bar
        have hsp := standardCrit_le b.standard h.standard
        have hcp := constructionCrit_le b.construction h.construction
        have hip := innerCrit_le b.inner_diameter_mm h.inner_diameter_mm
        have hmax : ((0 + 30 + 25 + 20 + 15 + 10 : ℕ) : ℚ) = 100 := by norm_num
        constructor
        · positivity
        · rw [hmax, div_mul_cancel₀ _ (by norm_num : (100:ℚ) ≠ 0)]
          have hs100 : dp + (ProductMatcher.pressureCrit b.working_pressure_mpa
              b.working_pressure_bar h.working_pressure_mpa h.working_pressure_bar).1
            + (ProductMatcher.standardCrit b.standard h.standard).1
            + (ProductMatcher.constructionCrit b.construction h.construction).1
            + (ProductMatcher.innerCrit b.inner_diameter_mm h.inner_diameter_mm).1 ≤ 100 := by
            omega
          exact_mod_cast hs100
  · intro bal heiz
    unfold FittingsMatcher.calculate_score
    have h1 := threadPoints_le bal heiz
    have h2 := dashPoints_le bal heiz
    have h3 := categoryPoints_le bal heiz
    have h4 := hoseSizePoints_le bal heiz
    omega
  · intro hz bl
    unfold SeriesMatcher.calculate_match_score
    cases hA : SeriesMatcher.angleStep hz.angle bl.angle with
    | inl m =>
      simp only [hA]
      norm_num
    | inr a =>
      simp only [hA]
      cases hS : SeriesMatcher.seriesStep hz.series bl.series with
      | inl m =>
        simp only [hS]
        norm_num
      | inr s =>
        simp only [hS]
        cases hT : SeriesMatcher.standardStep (SeriesMatcher.normalize_standard hz.standard)
            (SeriesMatcher.normalize_standard bl.standard) with
        | inl m =>
          simp only [hT]
          norm_num
        | inr t =>
          simp only [hT]
          rcases a with ⟨ap, ar, aw⟩
          rcases s with ⟨sp, sr, sw⟩
          rcases t with ⟨tp, tr, tw⟩
          have h1 : ap ≤ 20 := angleStep_le _ _ _ hA
          have h2 : sp ≤ 20 := seriesStep_le _ _ _ hS
          have h3 : tp ≤ 30 := standardStep_le _ _ _ hT
          have h4 := dnStep_le hz.dn bl.hose_size_mm
          have h5 := seatStep_le (SeriesMatcher.normalize_seat_type hz.seat_type)
            (SeriesMatcher.normalize_seat_type bl.seat_type)
          dsimp only
          omega

/-- C7 witness: the theorem applied at concrete pairs, including a hose
pair with a defined score. -/
theorem c7_witness :
    (0 ≤ (90:ℚ) ∧ (90:ℚ) ≤ 100) ∧
    FittingsMatcher.calculate_score Ex.balNoThread Ex.heizBsp ≤ 100 ∧
    (SeriesMatcher.calculate_match_score Ex.heizAngle90 Ex.balAngle90).1 ≤ 100 :=
  ⟨c7_score_boundedness.1 Ex.hoseSrc Ex.hoseTgt 90
      ["DN match: DN12", "Pressure match: 25.0 MPa ≈ 25.0 MPa",
       "Standard match: EN 857", "Construction match: 2 wire braid"] (by decide),
   c7_score_boundedness.2.1 Ex.balNoThread Ex.heizBsp,
   c7_score_boundedness.2.2 Ex.heizAngle90 Ex.balAngle90⟩

/-- A string field is stored exactly when the string is non-empty. -/
theorem strField_isSome (s : String) :
    (BalflexPdf.strField s).isSome = true ↔ s ≠ "" := by
  unfold BalflexPdf.strField
  split_ifs with h
  · simp [h]
  · simp [h]

/-- C8 counterexample: a data row whose inch cell and reference cell are
populated (the claim's size indicator and identifier) but whose DN cell
is empty and article cell is None is dropped (`.ok none`), refuting the
claimed acceptance criterion. -/
theorem c8_counterexample :
    BalflexPdf.cleanCell (BalflexPdf.cellAt Ex.rowNoDn 3) = "1/4\"" ∧
    BalflexPdf.cleanCell (BalflexPdf.cellAt Ex.rowNoDn 0) = "4SP-04-F" ∧
    BalflexPdf.extract_product_from_row Ex.rowNoDn "POWERSPIR BESTFLEX" "DIN EN 856 4SP"
      = .ok none := by
  refine ⟨by decide, by decide, rfl⟩

/-- C8 (amended): a Product is emitted for a row iff the row is at least
8 cells long, its working-pressure cell does not raise, its DN cell
yields a DN, and its article cell is non-empty after cleaning; all other
rows yield `.ok none` silently, except that a working-pressure cell
containing a space but no non-whitespace token raises `IndexError`. -/
theorem c8_row_acceptance :
    ∀ (row : List (Option String)) (model_name standard : String),
      (BalflexPdf.extract_product_from_row row model_name standard = .error () ↔
        ¬ row.length < 8 ∧ BalflexPdf.wpToken (pyStr (BalflexPdf.cellAt row 7)) = .error ()) ∧
      ((∃ p, BalflexPdf.extract_product_from_row row model_name standard = .ok (some p)) ↔
        ¬ row.length < 8 ∧
        (∃ w, BalflexPdf.wpToken (pyStr (BalflexPdf.cellAt row 7)) = .ok w) ∧
        (BalflexPdf.dnFromCell (BalflexPdf.cleanCell (BalflexPdf.cellAt row 2))).isSome = true ∧
        BalflexPdf.cleanCell (BalflexPdf.cellAt row 1) ≠ "") := by
  intro row mn st
  unfold BalflexPdf.extract_product_from_row
  by_cases hlen : row.length < 8
  · rw [if_pos hlen]
    refine ⟨by simp [hlen], by simp [hlen]⟩
  · rw [if_neg hlen]
    cases hw : BalflexPdf.wpToken (pyStr (BalflexPdf.cellAt row 7)) with
    | error u =>
      cases u
      constructor
      · simp [hlen, hw]
      · constructor
        · rintro ⟨p, hp⟩
          exact Except.noConfusion hp
        · rintro ⟨-, ⟨w, hww⟩, -, -⟩
          exact Except.noConfusion hww
    | ok wtok =>
      dsimp only
      constructor
      · constructor
        · intro habs
          split at habs
          · exact Except.noConfusion habs
          · exact Except.noConfusion habs
        · rintro ⟨-, habs⟩
          exact Except.noConfusion habs
      · constructor
        · rintro ⟨p, hp⟩
          split at hp
          · rename_i hcond
            exact ⟨hlen, ⟨wtok, rfl⟩, hcond.1, (strField_isSome _).mp hcond.2⟩
          · injection hp with h2
            exact Option.noConfusion h2
        · rintro ⟨-, -, hdn, hart⟩
          rw [if_pos ⟨hdn, (strField_isSome _).mpr hart⟩]
          exact ⟨_, rfl⟩

/-- C8 witness: the amended criterion applied at a complete concrete
row, which is emitted. -/
theorem c8_witness :
    ∃ p, BalflexPdf.extract_product_from_row Ex.rowFull "POWERSPIR BESTFLEX"
      "DIN EN 856 4SP" = .ok (some p) :=
  ((c8_row_acceptance Ex.rowFull "POWERSPIR BESTFLEX" "DIN EN 856 4SP").2).mpr
    ⟨by decide, ⟨"45,0", rfl⟩, by decide, by decide⟩

/-- The exception handler always yields a plain value. -/
theorem catchAll_ok (a : Except String (Option ℚ)) :
    ∃ r, FixBalflex.catchAll a = .ok r := by
  cases a with
  | ok r => exact ⟨r, rfl⟩
  | error e => exact ⟨none, rfl⟩

/-- C9: the field normalizers are total: on every input — empty or
malformed included — each returns `.ok` of a value or of `None`; no
exception escapes (`_extract_float` catches its `float(...)` failure,
`normalize_dash_code` has no raising operation, and `parse_inch_to_mm`
catches its `float(...)` and division failures). -/
theorem c9_normalizer_totality :
    (∀ cell, ∃ r, BalflexPdf.extract_floatE cell = .ok r) ∧
    (∀ d, ∃ r, FixBalflex.normalize_dash_codeE d = .ok r) ∧
    (∀ i, ∃ r, FixBalflex.parse_inch_to_mmE i = .ok r) := by
  refine ⟨?_, ?_, ?_⟩
  · intro cell
    unfold BalflexPdf.extract_floatE
    rcases cell with _ | c
    · exact ⟨none, rfl⟩
    · dsimp only
      cases hn : numSearch (pyReplace (pyStrip c) "," ".") with
      | none => exact ⟨none, rfl⟩
      | some tok =>
        dsimp only
        cases hf : pyFloatE tok with
        | ok q => exact ⟨some q, rfl⟩
        | error e => exact ⟨none, rfl⟩
  · intro d
    exact ⟨FixBalflex.normalize_dash_code d, rfl⟩
  · intro i
    unfold FixBalflex.parse_inch_to_mmE
    split_ifs with h
    · dsimp only
      cases hl : FixBalflex.INCH_TO_MM
          (pyReplace (pyReplace (pyStrip (getS i)) "\"" "") " " "") with
      | some v => exact ⟨some v, rfl⟩
      | none => exact catchAll_ok _
    · exact ⟨none, rfl⟩

/-- C10: the hose scorer's `max_score` accumulates to 100 on every pair
that reaches normalization, so `(score / max_score) * 100` is the
identity: whenever the scorer returns, the returned score equals the
raw sum of awarded points (0 on the Gate's reject path). -/
theorem c10_normalization_identity :
    ∀ b h q rs, ProductMatcher.calculate_match_score b h = some (q, rs) →
      ∃ n, ProductMatcher.raw_points b h = some n ∧ q = (n : ℚ) := by
  intro b h q rs hc
  unfold ProductMatcher.calculate_match_score at hc
  unfold ProductMatcher.raw_points
  cases hg : ProductMatcher.hoseGateStr b.construction h.construction with
  | some r =>
    simp only [hg] at hc
    simp only [hg]
    rw [Option.some.injEq, Prod.mk.injEq] at hc
    obtain ⟨hq, -⟩ := hc
    exact ⟨0, rfl, by rw [← hq]; norm_num⟩
  | none =>
    simp only [hg] at hc
    simp only [hg]
    cases hd : ProductMatcher.dnCrit b.dn h.dn with
    | none =>
      simp only [hd] at hc
      exact Option.noConfusion hc
    | some p =>
      rcases p with ⟨dp, dr⟩
      simp only [hd] at hc
      rw [Option.some.injEq, Prod.mk.injEq] at hc
      obtain ⟨hq, -⟩ := hc
      rw [if_pos (by norm_num : (0:ℕ) < 0 + 30 + 25 + 20 + 15 + 10)] at hq
      refine ⟨_, rfl, ?_⟩
      rw [← hq]
      have hmax : ((0 + 30 + 25 + 20 + 15 + 10 : ℕ) : ℚ) = 100 := by norm_num
      rw [hmax, div_mul_cancel₀ _ (by norm_num : (100:ℚ) ≠ 0)]

/-- C10 witness: on the end-to-end pair the returned score 90 equals
the raw sum of awarded points. -/
theorem c10_witness :
    ∃ n, ProductMatcher.raw_points Ex.hoseSrc Ex.hoseTgt = some n ∧ (90:ℚ) = (n : ℚ) :=
  c10_normalization_identity Ex.hoseSrc Ex.hoseTgt 90
    ["DN match: DN12", "Pressure match: 25.0 MPa ≈ 25.0 MPa",
     "Standard match: EN 857", "Construction match: 2 wire braid"] (by decide)

end Scraping
